import Mathlib

/-!
Shallow embedding of the two source files of this repository:
`src/jishaku/features/root_command.py` and `src/Dropdown.py`.

The Python code is a set of chat-bot commands that mutate a task list
and send messages.  Each command is embedded as a pure function from its
inputs (the author id, the current task list, the command argument, the
bot state) to a result record that carries the new task list, the list
of framework tasks on which `cancel()` was called (in call order), the
message sent by the command, and whether a `BadArgument` was raised.
-/

/-- A jishaku `CommandTask` (a namedtuple `index, ctx, task` in the
framework).  `ctx` is modelled by the two attributes the source reads,
`ctx.command.qualified_name` and the already-`strftime`-formatted
`ctx.message.created_at`; the underlying framework task object is
modelled by an identity `taskId`. -/
structure CommandTask where
  index : Int
  qualifiedName : String
  createdAt : String
  taskId : Nat
deriving DecidableEq, Repr

/-- The converted value of the `index: typing.Union[int, str]` argument
of `jsk_cancel`: the framework passes an `int` when the text parses as
one, otherwise the raw string. -/
inductive CancelArg where
  | int (i : Int)
  | str (s : String)
deriving DecidableEq, Repr

/-- Observable outcome of one `jsk_cancel` invocation: the task list
after the call, the tasks whose underlying framework task had
`cancel()` called (in call order), the message sent via `ctx.send`, and
whether `commands.BadArgument` was raised. -/
structure CancelResult where
  tasks : List CommandTask
  cancelled : List CommandTask
  sent : Option String
  badArgument : Bool
deriving DecidableEq, Repr

/-- Python `list.remove(t)`: removes the first element equal to `t`
(structural equality, as for namedtuples).  The source only calls it on
an element obtained from the same list, so the absent case (a Python
`ValueError`) never arises; it is modelled as a no-op. -/
def listRemove : List CommandTask → CommandTask → List CommandTask
  | [], _ => []
  | x :: xs, t => if x = t then xs else x :: listRemove xs t

/-- `discord.utils.get(self.tasks, index=index)`: the first element of
the list whose `index` attribute equals `index`, else `None`. -/
def discordUtilsGet (tasks : List CommandTask) (i : Int) : Option CommandTask :=
  tasks.find? (fun t => t.index = i)

/-- The `ctx.send` text on the single-task success path of
`jsk_cancel` (source lines 249-250). -/
def cancelledTaskMsg (t : CommandTask) : String :=
  "Cancelled task " ++ toString t.index ++ ": `" ++ t.qualifiedName
    ++ "`, invoked at " ++ t.createdAt ++ " UTC"

/-- The body of `jsk_cancel` (source lines 213-250), translated
branch by branch:
author gate, empty-list gate, `index == "~"` clear-all branch,
`isinstance(index, str)` `BadArgument` branch, `index == -1` pop-last
branch, and the `discord.utils.get` / `remove` branch. -/
def jsk_cancel (authorId : Nat) (tasks : List CommandTask) (index : CancelArg) : CancelResult :=
  if authorId ≠ 924589827586928730 then
    { tasks := tasks, cancelled := [], sent := none, badArgument := false }
  else if tasks.isEmpty then
    { tasks := tasks, cancelled := [], sent := some ("No tasks to cancel."),
      badArgument := false }
  else if index = CancelArg.str "~" then
    { tasks := [], cancelled := tasks,
      sent := some ("Cancelled " ++ toString tasks.length ++ " tasks."),
      badArgument := false }
  else
    match index with
    | CancelArg.str _ =>
        { tasks := tasks, cancelled := [], sent := none, badArgument := true }
    | CancelArg.int i =>
        if i = -1 then
          match tasks.getLast? with
          | some t =>
              { tasks := tasks.dropLast, cancelled := [t],
                sent := some (cancelledTaskMsg t), badArgument := false }
          | none =>
              { tasks := tasks, cancelled := [], sent := none, badArgument := false }
        else
          match discordUtilsGet tasks i with
          | some t =>
              { tasks := listRemove tasks t, cancelled := [t],
                sent := some (cancelledTaskMsg t), badArgument := false }
          | none =>
              { tasks := tasks, cancelled := [], sent := some ("Unknown task."),
                badArgument := false }

/-- Outcome of a `jsk_tasks` invocation: the task list after the call
(the command only reads it), the plain `ctx.send` message if any, and
the lines added to the `commands.Paginator` when a paginated listing is
sent (source lines 195-211). -/
structure TasksResult where
  tasks : List CommandTask
  sent : Option String
  pages : Option (List String)
deriving DecidableEq, Repr

/-- The line `jsk_tasks` adds to the paginator for one task
(source lines 207-208). -/
def taskLine (t : CommandTask) : String :=
  toString t.index ++ ": `" ++ t.qualifiedName ++ "`, invoked at "
    ++ t.createdAt ++ " UTC"

/-- The body of `jsk_tasks` (source lines 195-211): empty-list message,
otherwise one paginator line per task. -/
def jsk_tasks (tasks : List CommandTask) : TasksResult :=
  if tasks.isEmpty then
    { tasks := tasks, sent := some ("No currently running tasks."), pages := none }
  else
    { tasks := tasks, sent := none, pages := some (tasks.map taskLine) }

/-- Outcome of a `jsk_hide` invocation: the `hidden` flag of the `jsk`
command after the call and the message sent. -/
structure HideResult where
  hidden : Bool
  sent : String
deriving DecidableEq, Repr

/-- The body of `jsk_hide` (source lines 170-180). -/
def jsk_hide (hidden : Bool) : HideResult :=
  if hidden then
    { hidden := hidden, sent := "Jishaku is already hidden." }
  else
    { hidden := true, sent := "Jishaku is now hidden." }

/-- The body of `jsk_show` (source lines 182-192). -/
def jsk_show (hidden : Bool) : HideResult :=
  if !hidden then
    { hidden := hidden, sent := "Jishaku is already visible." }
  else
    { hidden := false, sent := "Jishaku is now visible." }

/-- A `discord.SelectOption` as constructed in `src/Dropdown.py`. -/
structure SelectOption where
  label : String
  description : String
  emoji : String
deriving DecidableEq, Repr

/-- The single option the `Dropdown` is constructed with
(`src/Dropdown.py` lines 10-12). -/
def Dropdown.options : List SelectOption :=
  [{ label := "CUSTOM BOT", description := "Choose your favourite owner",
     emoji := "<a:CROWN:929105520080609310>" }]

/-- An `interaction.response.send_message(...)` call: the message
content and the `ephemeral` flag. -/
structure InteractionResponse where
  content : String
  ephemeral : Bool
deriving DecidableEq, Repr

/-- The body of `Dropdown.callback` (`src/Dropdown.py` lines 16-18):
the selected values of the interaction are taken as input, and the
response sent is returned. -/
def Dropdown.callback (_selectedValues : List String) : InteractionResponse :=
  { content := "**DM <@924589827586928730> TO BUY YOUR OWN CUSTOM BOT OK !! \n PRICE 1.5K FOR BOT AND AFTER 1 MONTH 800 INR PER MONTH HOSTING CHARGE**",
    ephemeral := true }

/-- Formats `n / d` (for `d > 0`) with two decimals, rounding ties to
even, as CPython string formatting with `.2f` does on the exact
quotient. -/
def fmt2 (n d : Nat) : String :=
  let num := n * 100
  let q := num / d
  let r := num % d
  let rounded :=
    if d < 2 * r then q + 1
    else if 2 * r < d then q
    else if q % 2 = 0 then q else q + 1
  let frac := rounded % 100
  toString (rounded / 100) ++ "." ++ (if frac < 10 then "0" else "") ++ toString frac

/-- `natural_size` (source lines 37-48).  The source computes
`power = int(math.log(size_in_bytes, 1024))` with IEEE-754 doubles and
formats `size_in_bytes / 1024 ** power` with float division; this model
uses the exact integer logarithm `Nat.log` and exact rational
rounding instead, so float rounding deviations of the source are
outside this model.  An index past the end of `units` (a Python
`IndexError`) is modelled with the empty string. -/
def natural_size (size_in_bytes : Nat) : String :=
  let units := ["B", "KiB", "MiB", "GiB", "TiB", "PiB", "EiB", "ZiB", "YiB"]
  let power := Nat.log 1024 size_in_bytes
  fmt2 size_in_bytes (1024 ^ power) ++ " " ++ units.getD power ""

/-- The sharding configuration of the bot as read by `jsk`
(source lines 126-144): an `AutoShardedClient` with its shard-id dict
keys and `shard_count`, a client with a truthy `shard_count`
(manually sharded), or neither. -/
inductive ShardInfo where
  | auto (shardIds : List Nat) (shardCount : Nat)
  | manual (shardId : Nat) (shardCount : Nat)
  | unsharded
deriving DecidableEq, Repr

/-- Everything the bare `jsk` command body reads from its environment
(interpreter, package metadata, `psutil`, and the bot object).  The
three `Bool` access fields record whether `psutil.Process()`,
`proc.memory_full_info()` and `proc.name()`/`pid`/`num_threads()`
succeed rather than raise `psutil.AccessDenied`.  Timestamps are the
`:.0f`-formatted values and `latency` the `round(..., 2)`-formatted
value, kept as strings since their float formatting is not modelled. -/
structure JskState where
  pythonVersion : String
  jishakuVersion : String
  distributions : List String
  distVersionOf : String → String
  discordVersion : String
  loadTimeTs : String
  startTimeTs : String
  psutil : Bool
  procAccess : Bool
  memAccess : Bool
  memRss : Nat
  memVms : Nat
  memUss : Nat
  infoAccess : Bool
  procName : String
  procPid : Nat
  threadCount : Nat
  guilds : Nat
  users : Nat
  roles : Nat
  channels : Nat
  sharding : ShardInfo
  maxMessages : Nat
  versionAtLeast150 : Bool
  presences : Bool
  membersIntent : Bool
  guildSubscriptions : Bool
  avatarUrl : String
  latency : String

/-- `dist_version` (source lines 79-82). -/
def distVersionStr (s : JskState) : String :=
  match s.distributions with
  | d :: _ =>
      "<a:right_abrutal:930507586145488976>" ++ d ++ " Version is `v"
        ++ s.distVersionOf d ++ "`"
  | [] => "unknown `" ++ s.discordVersion ++ "`"

/-- `summary[0]`, the version and load-time block (source lines 85-88);
it carries the module and cog load times. -/
def versionsBlock (s : JskState) : String :=
  "<a:right_abrutal:930507586145488976>Python Version is `v" ++ s.pythonVersion
    ++ "` <:python:928561050339667978>\n"
  ++ "<a:right_abrutal:930507586145488976>**Jishaku Version is `v" ++ s.jishakuVersion
    ++ "` <:id_em:928569034847428618> \n " ++ distVersionStr s
    ++ " <a:emoji_Discord:942656688949977148>\n\n"
  ++ "<a:right_abrutal:930507586145488976>Module was loaded <t:" ++ s.loadTimeTs
    ++ ":R>. <a:dia:928560211847962626>\n"
  ++ "<a:right_abrutal:930507586145488976>Cog was loaded <t:" ++ s.startTimeTs
    ++ ":R>.** <a:dia:928560211847962626>\n"

/-- The memory-usage line (source lines 100-102). -/
def memoryLine (s : JskState) : String :=
  "Using " ++ natural_size s.memRss ++ " physical memory and "
    ++ natural_size s.memVms ++ " virtual memory, "
    ++ natural_size s.memUss ++ " of which unique to this process."

/-- The PID line (source line 111). -/
def pidLine (s : JskState) : String :=
  "Running on PID " ++ toString s.procPid ++ " (`" ++ s.procName ++ "`) with "
    ++ toString s.threadCount ++ " thread(s)."

/-- The lines the `psutil` section contributes to the summary
(source lines 93-121). -/
def psutilBlock (s : JskState) : List String :=
  if s.psutil then
    if s.procAccess then
      (if s.memAccess then [memoryLine s] else [])
        ++ (if s.infoAccess then [pidLine s] else []) ++ [""]
    else
      ["psutil is installed, but this process does not have high enough access rights to query process information.\n", ""]
  else []

/-- `cache_summary` (source line 123). -/
def cacheSummary (s : JskState) : String :=
  "<a:right_abrutal:930507586145488976> **Bot Total Guilds `" ++ toString s.guilds
    ++ "`guilds. <a:partner:928740251038535771> \n<a:right_abrutal:930507586145488976> Bot Total Users `"
    ++ toString s.users
    ++ "`users. <:members:928563309786050561>\n<a:right_abrutal:930507586145488976> Bot Total roles `"
    ++ toString s.roles
    ++ "`roles. <a:roles_:928563417667731458>\n<a:right_abrutal:930507586145488976> Bot Total Channel `"
    ++ toString s.channels ++ "`channels. <:text:928563359287234560>**"

/-- The shard-information line (source lines 126-144). -/
def shardLine (s : JskState) : String :=
  match s.sharding with
  | ShardInfo.auto ids count =>
      if ids.length > 20 then
        "This bot is automatically sharded (" ++ toString ids.length
          ++ " shards of " ++ toString count ++ ") and can see "
          ++ cacheSummary s ++ ".\n"
      else
        "This bot is automatically sharded (Shards "
          ++ String.intercalate ", " (ids.map toString) ++ " of "
          ++ toString count ++ ") and can see " ++ cacheSummary s ++ ".\n"
  | ShardInfo.manual sid count =>
      "This bot is manually sharded (Shard " ++ toString sid ++ " of "
        ++ toString count ++ ") and can see " ++ cacheSummary s ++ ".\n"
  | ShardInfo.unsharded =>
      "<a:right_abrutal:930507586145488976> **This bot is not sharded and can see** <a:emoji_Cross:943494534111830036> \n"
        ++ cacheSummary s

/-- `message_cache` (source lines 147-150); `max_messages` is falsy
when it is `None` or `0`, both modelled by `0`. -/
def messageCacheStr (s : JskState) : String :=
  if s.maxMessages ≠ 0 then
    "<a:right_abrutal:930507586145488976>**Message cache capped at** `"
      ++ toString s.maxMessages ++ "`"
  else
    "<a:right_abrutal:930507586145488976>**Message cache is disabled**"

/-- The message-cache and intents summary line appended when
`discord.version_info >= (1, 5, 0)` (source lines 152-156). -/
def intentsLine (s : JskState) : String :=
  messageCacheStr s ++ " \n "
    ++ "<a:right_abrutal:930507586145488976>**Presence intent is** "
    ++ (if s.presences then "`Enabled` <a:emoji_tick:943497995045994546> "
        else "`Disabled` <a:emoji_Cross:943494534111830036>")
    ++ " \n "
    ++ "<a:right_abrutal:930507586145488976>**Pembers intent is** "
    ++ (if s.membersIntent then "`Enabled` <a:emoji_tick:943497995045994546> "
        else "`Disabled` <a:emoji_Cross:943494534111830036>")

/-- The message-cache line appended on older library versions
(source lines 158-160). -/
def legacyCacheLine (s : JskState) : String :=
  messageCacheStr s ++ " and guild subscriptions are "
    ++ (if s.guildSubscriptions then "enabled" else "disabled") ++ "\n."

/-- The full `summary` list built by the `jsk` body
(source lines 84-160). -/
def jskSummary (s : JskState) : List String :=
  [versionsBlock s, ""]
    ++ psutilBlock s
    ++ [shardLine s]
    ++ [if s.versionAtLeast150 then intentsLine s else legacyCacheLine s]

/-- A `discord.Embed` with the attributes `jsk` sets
(source lines 164-166). -/
structure Embed where
  title : String
  description : String
  color : Nat
  thumbnailUrl : String
  footerText : String
  footerIconUrl : String

/-- The `ctx.reply` call of `jsk`: its embeds and `mention_author`. -/
structure JskReply where
  embeds : List Embed
  mentionAuthor : Bool

/-- The body of the bare `jsk` command (source lines 62-167): it builds
`summary` and replies with a single embed whose description joins it
with newlines. -/
def jsk (s : JskState) : JskReply :=
  { embeds := [{ title := "Jishaku By Harsh !!",
                 description := String.intercalate "\n" (jskSummary s),
                 color := 0x2f3136,
                 thumbnailUrl := s.avatarUrl,
                 footerText := "Average websocket latency: " ++ s.latency ++ "ms",
                 footerIconUrl := s.avatarUrl }],
    mentionAuthor := false }

/-- A concrete bot state used to instantiate the status-embed theorem:
`psutil` importable with full access, modern library version. -/
def jskStateEx : JskState :=
  { pythonVersion := "3.10.4", jishakuVersion := "2.3.2",
    distributions := ["discord.py"], distVersionOf := fun _ => "2.0.1",
    discordVersion := "2.0.1",
    loadTimeTs := "1650000000", startTimeTs := "1650000001",
    psutil := true, procAccess := true, memAccess := true,
    memRss := 1048576, memVms := 2097152, memUss := 524288,
    infoAccess := true, procName := "python3", procPid := 1234, threadCount := 4,
    guilds := 2, users := 10, roles := 5, channels := 7,
    sharding := ShardInfo.unsharded, maxMessages := 1000,
    versionAtLeast150 := true, presences := true, membersIntent := true,
    guildSubscriptions := true,
    avatarUrl := "https://cdn.example/avatar.png", latency := "42.0" }

theorem find?_append_of_forall_not (p : CommandTask → Bool) (pre post : List CommandTask)
    (t : CommandTask) (hpre : ∀ u ∈ pre, p u = false) (ht : p t = true) :
    List.find? p (pre ++ t :: post) = some t := by
  induction pre with
  | nil => simp [List.find?_cons, ht]
  | cons x xs ih =>
      have hx := hpre x (by simp)
      simp only [List.cons_append, List.find?_cons, hx]
      exact ih (fun u hu => hpre u (by simp [hu]))

theorem listRemove_append (pre post : List CommandTask) (t : CommandTask)
    (hpre : ∀ u ∈ pre, u ≠ t) :
    listRemove (pre ++ t :: post) t = pre ++ post := by
  induction pre with
  | nil => simp [listRemove]
  | cons x xs ih =>
      have hx : x ≠ t := hpre x (by simp)
      simp only [List.cons_append, listRemove, if_neg hx]
      exact congrArg (List.cons x) (ih (fun u hu => hpre u (by simp [hu])))

/-- Claim C1: when the owner (author id 924589827586928730) invokes
`jsk_cancel` with an integer `i ≠ -1` and the task list contains a task
whose `index` field is `i` (decomposed here as the list
`pre ++ t :: post` with `t` the first such task), exactly that task is
removed, its framework task is cancelled, and every other task stays in
relative order. -/
theorem jsk_cancel_index_removes_target (pre post : List CommandTask) (t : CommandTask)
    (i : Int) (hidx : t.index = i) (hpre : ∀ u ∈ pre, u.index ≠ i) (hne : i ≠ -1) :
    (jsk_cancel 924589827586928730 (pre ++ t :: post) (CancelArg.int i)).tasks = pre ++ post ∧
    (jsk_cancel 924589827586928730 (pre ++ t :: post) (CancelArg.int i)).cancelled = [t] ∧
    (jsk_cancel 924589827586928730 (pre ++ t :: post) (CancelArg.int i)).sent =
      some (cancelledTaskMsg t) := by
  have hfind : discordUtilsGet (pre ++ t :: post) i = some t := by
    unfold discordUtilsGet
    exact find?_append_of_forall_not _ pre post t
      (fun u hu => by simp [hpre u hu]) (by simp [hidx])
  have hrem : listRemove (pre ++ t :: post) t = pre ++ post :=
    listRemove_append pre post t (fun u hu h => hpre u hu (h ▸ hidx))
  simp [jsk_cancel, hne, hfind, hrem]

theorem jsk_cancel_index_removes_target_witness :
    (jsk_cancel 924589827586928730
        ([⟨1, "a", "x", 10⟩] ++ (⟨2, "b", "y", 11⟩ : CommandTask) :: [⟨3, "c", "z", 12⟩])
        (CancelArg.int 2)).tasks = [⟨1, "a", "x", 10⟩] ++ [⟨3, "c", "z", 12⟩] ∧
    (jsk_cancel 924589827586928730
        ([⟨1, "a", "x", 10⟩] ++ (⟨2, "b", "y", 11⟩ : CommandTask) :: [⟨3, "c", "z", 12⟩])
        (CancelArg.int 2)).cancelled = [⟨2, "b", "y", 11⟩] ∧
    (jsk_cancel 924589827586928730
        ([⟨1, "a", "x", 10⟩] ++ (⟨2, "b", "y", 11⟩ : CommandTask) :: [⟨3, "c", "z", 12⟩])
        (CancelArg.int 2)).sent = some (cancelledTaskMsg ⟨2, "b", "y", 11⟩) :=
  jsk_cancel_index_removes_target [⟨1, "a", "x", 10⟩] [⟨3, "c", "z", 12⟩]
    ⟨2, "b", "y", 11⟩ 2 rfl (by decide) (by decide)

/-- Claim C2: when the owner invokes `jsk_cancel` with the literal
`"~"` on a non-empty task list, every task is cancelled (in list
order), the list becomes empty, and the reply reports the original
task count. -/
theorem jsk_cancel_tilde_clears_all (tasks : List CommandTask) (h : tasks ≠ []) :
    (jsk_cancel 924589827586928730 tasks (CancelArg.str "~")).cancelled = tasks ∧
    (jsk_cancel 924589827586928730 tasks (CancelArg.str "~")).tasks = [] ∧
    (jsk_cancel 924589827586928730 tasks (CancelArg.str "~")).sent =
      some ("Cancelled " ++ toString tasks.length ++ " tasks.") := by
  simp [jsk_cancel, h]

theorem jsk_cancel_tilde_clears_all_witness :
    (jsk_cancel 924589827586928730 [⟨0, "a", "x", 10⟩, ⟨1, "b", "y", 11⟩]
        (CancelArg.str "~")).cancelled = [⟨0, "a", "x", 10⟩, ⟨1, "b", "y", 11⟩] ∧
    (jsk_cancel 924589827586928730 [⟨0, "a", "x", 10⟩, ⟨1, "b", "y", 11⟩]
        (CancelArg.str "~")).tasks = [] ∧
    (jsk_cancel 924589827586928730 [⟨0, "a", "x", 10⟩, ⟨1, "b", "y", 11⟩]
        (CancelArg.str "~")).sent =
      some ("Cancelled " ++ toString ([⟨0, "a", "x", 10⟩, (⟨1, "b", "y", 11⟩ : CommandTask)]).length ++ " tasks.") :=
  jsk_cancel_tilde_clears_all [⟨0, "a", "x", 10⟩, ⟨1, "b", "y", 11⟩] (by decide)

/-- Claim C3: when the owner invokes `jsk_cancel` with an integer
`i ≠ -1` on a non-empty task list containing no task of index `i`, the
reply is `Unknown task.`, the list is unchanged, no task is cancelled,
and no `BadArgument` is raised. -/
theorem jsk_cancel_unknown_index (tasks : List CommandTask) (i : Int)
    (h : tasks ≠ []) (hne : i ≠ -1) (hnone : ∀ t ∈ tasks, t.index ≠ i) :
    (jsk_cancel 924589827586928730 tasks (CancelArg.int i)).sent = some ("Unknown task.") ∧
    (jsk_cancel 924589827586928730 tasks (CancelArg.int i)).tasks = tasks ∧
    (jsk_cancel 924589827586928730 tasks (CancelArg.int i)).cancelled = [] ∧
    (jsk_cancel 924589827586928730 tasks (CancelArg.int i)).badArgument = false := by
  have hfind : discordUtilsGet tasks i = none := by
    unfold discordUtilsGet
    refine List.find?_eq_none.mpr ?_
    intro x hx
    simp [hnone x hx]
  simp [jsk_cancel, h, hne, hfind]

theorem jsk_cancel_unknown_index_witness :
    (jsk_cancel 924589827586928730 [⟨0, "a", "x", 10⟩] (CancelArg.int 5)).sent =
      some ("Unknown task.") ∧
    (jsk_cancel 924589827586928730 [⟨0, "a", "x", 10⟩] (CancelArg.int 5)).tasks =
      [⟨0, "a", "x", 10⟩] ∧
    (jsk_cancel 924589827586928730 [⟨0, "a", "x", 10⟩] (CancelArg.int 5)).cancelled = [] ∧
    (jsk_cancel 924589827586928730 [⟨0, "a", "x", 10⟩] (CancelArg.int 5)).badArgument = false :=
  jsk_cancel_unknown_index [⟨0, "a", "x", 10⟩] 5 (by decide) (by decide) (by decide)

/-- Claim C4: any author other than id 924589827586928730 gets an
immediate return from `jsk_cancel`: no message, no cancellation, task
list unchanged, for every argument and task list. -/
theorem jsk_cancel_other_author (authorId : Nat) (tasks : List CommandTask)
    (index : CancelArg) (h : authorId ≠ 924589827586928730) :
    jsk_cancel authorId tasks index =
      { tasks := tasks, cancelled := [], sent := none, badArgument := false } := by
  simp [jsk_cancel, h]

theorem jsk_cancel_other_author_witness :
    jsk_cancel 42 [⟨0, "a", "x", 10⟩] (CancelArg.str "~") =
      { tasks := [⟨0, "a", "x", 10⟩], cancelled := [], sent := none, badArgument := false } :=
  jsk_cancel_other_author 42 [⟨0, "a", "x", 10⟩] (CancelArg.str "~") (by decide)

/-- Claim C8: when the owner invokes `jsk_cancel` with index `-1` on a
non-empty task list, the last task of the list is removed and
cancelled, regardless of its `index` field, and the length drops by
one. -/
theorem jsk_cancel_neg_one_pops_last (tasks : List CommandTask) (h : tasks ≠ []) :
    (jsk_cancel 924589827586928730 tasks (CancelArg.int (-1))).tasks = tasks.dropLast ∧
    (jsk_cancel 924589827586928730 tasks (CancelArg.int (-1))).cancelled = [tasks.getLast h] ∧
    (jsk_cancel 924589827586928730 tasks (CancelArg.int (-1))).tasks.length =
      tasks.length - 1 := by
  have hlast : tasks.getLast? = some (tasks.getLast h) := List.getLast?_eq_getLast tasks h
  simp [jsk_cancel, h, hlast]

theorem jsk_cancel_neg_one_pops_last_witness :
    (jsk_cancel 924589827586928730 [⟨7, "a", "x", 10⟩, ⟨9, "b", "y", 11⟩]
        (CancelArg.int (-1))).tasks = ([⟨7, "a", "x", 10⟩, (⟨9, "b", "y", 11⟩ : CommandTask)]).dropLast ∧
    (jsk_cancel 924589827586928730 [⟨7, "a", "x", 10⟩, ⟨9, "b", "y", 11⟩]
        (CancelArg.int (-1))).cancelled =
      [([⟨7, "a", "x", 10⟩, (⟨9, "b", "y", 11⟩ : CommandTask)]).getLast (by decide)] ∧
    (jsk_cancel 924589827586928730 [⟨7, "a", "x", 10⟩, ⟨9, "b", "y", 11⟩]
        (CancelArg.int (-1))).tasks.length =
      ([⟨7, "a", "x", 10⟩, (⟨9, "b", "y", 11⟩ : CommandTask)]).length - 1 :=
  jsk_cancel_neg_one_pops_last [⟨7, "a", "x", 10⟩, ⟨9, "b", "y", 11⟩] (by decide)

/-- Claim C5: `jsk_tasks` sends exactly `No currently running tasks.`
on an empty task list, and otherwise sends a paginated listing with one
line per task (each line being `taskLine`, which gives the index, the
qualified command name and the invocation timestamp), never modifying
the task list. -/
theorem jsk_tasks_report (tasks : List CommandTask) :
    (jsk_tasks tasks).tasks = tasks ∧
    (tasks = [] → (jsk_tasks tasks).sent = some ("No currently running tasks.") ∧
      (jsk_tasks tasks).pages = none) ∧
    (tasks ≠ [] → (jsk_tasks tasks).sent = none ∧
      (jsk_tasks tasks).pages = some (tasks.map taskLine) ∧
      (tasks.map taskLine).length = tasks.length) := by
  cases tasks <;> simp [jsk_tasks]

theorem jsk_tasks_report_witness :
    (jsk_tasks [⟨0, "jishaku py", "2022-01-01 00:00:00", 10⟩]).sent = none ∧
    (jsk_tasks [⟨0, "jishaku py", "2022-01-01 00:00:00", 10⟩]).pages =
      some (([⟨0, "jishaku py", "2022-01-01 00:00:00", 10⟩] : List CommandTask).map taskLine) ∧
    (([⟨0, "jishaku py", "2022-01-01 00:00:00", 10⟩] : List CommandTask).map taskLine).length =
      ([⟨0, "jishaku py", "2022-01-01 00:00:00", 10⟩] : List CommandTask).length :=
  (jsk_tasks_report [⟨0, "jishaku py", "2022-01-01 00:00:00", 10⟩]).2.2 (by decide)

/-- Claim C6: `jsk_hide` replies `Jishaku is already hidden.` and
leaves the flag `true` when it is already set, and otherwise sets it to
`true` and replies `Jishaku is now hidden.`. -/
theorem jsk_hide_toggle (hidden : Bool) :
    (hidden = true → jsk_hide hidden = { hidden := true, sent := "Jishaku is already hidden." }) ∧
    (hidden = false → jsk_hide hidden = { hidden := true, sent := "Jishaku is now hidden." }) := by
  cases hidden <;> simp [jsk_hide]

theorem jsk_hide_toggle_witness :
    jsk_hide true = { hidden := true, sent := "Jishaku is already hidden." } ∧
    jsk_hide false = { hidden := true, sent := "Jishaku is now hidden." } :=
  ⟨(jsk_hide_toggle true).1 rfl, (jsk_hide_toggle false).2 rfl⟩

/-- Claim C7: the bare `jsk` command replies with a single embed whose
description is the newline-join of the summary, and that summary always
carries the version/load-time block (module and cog load times) and the
shard-information line, carries the memory-usage line whenever `psutil`
is importable and both `Process()` and `memory_full_info()` are
permitted, and carries the message-cache and intents line on library
versions from 1.5.0 on. -/
theorem jsk_status_embed (s : JskState) :
    (jsk s).embeds.length = 1 ∧
    (∀ e ∈ (jsk s).embeds,
      e.description = String.intercalate "\n" (jskSummary s)) ∧
    versionsBlock s ∈ jskSummary s ∧
    (s.psutil = true → s.procAccess = true → s.memAccess = true →
      memoryLine s ∈ jskSummary s) ∧
    shardLine s ∈ jskSummary s ∧
    (s.versionAtLeast150 = true → intentsLine s ∈ jskSummary s) ∧
    (jsk s).mentionAuthor = false := by
  refine ⟨?_, ?_, ?_, ?_, ?_, ?_, ?_⟩
  · simp [jsk]
  · simp [jsk]
  · simp [jskSummary]
  · intro hp hpa hm
    simp [jskSummary, psutilBlock, hp, hpa, hm]
  · simp [jskSummary]
  · intro hv
    simp [jskSummary, hv]
  · simp [jsk]

theorem jsk_status_embed_witness :
    memoryLine jskStateEx ∈ jskSummary jskStateEx ∧
    intentsLine jskStateEx ∈ jskSummary jskStateEx := by
  obtain ⟨-, -, -, hmem, -, hint, -⟩ := jsk_status_embed jskStateEx
  exact ⟨hmem rfl rfl rfl, hint rfl⟩

/-- Claim C10: the dropdown callback sends the same fixed promotional
message ephemerally, whatever was selected. -/
theorem dropdown_callback_fixed_promo (selectedValues other : List String) :
    Dropdown.callback selectedValues =
      { content := "**DM <@924589827586928730> TO BUY YOUR OWN CUSTOM BOT OK !! \n PRICE 1.5K FOR BOT AND AFTER 1 MONTH 800 INR PER MONTH HOSTING CHARGE**",
        ephemeral := true } ∧
    Dropdown.callback selectedValues = Dropdown.callback other :=
  ⟨rfl, rfl⟩
